import Mathlib

/-!
Shallow embedding of `riskguard/agent_executor.py` —
`RiskGuardAgentExecutor.execute`.

The executor receives an A2A `RequestContext` (a context id, a task id and a
message whose first part may be a `DataPart`), validates it, resolves an ADK
session through the runner's session service, drives the ADK agent and scans
its event stream for a `risk_check_result` function response, and finally
enqueues exactly one outbound message on the event queue before closing it.

External collaborators are modelled as oracles:
  * the session service is an in-memory store (a list of
    `(app_name, user_id, session_id)` keys) plus failure-injection flags for
    the exceptional behaviours the Python code guards against
    (`get_session` raising, `create_session` raising or returning `None`);
  * the engine's `run_async` stream is a list of items, each either a yielded
    event or an exception raised while iterating.

Python truthiness (`not context.context_id`, `not agent_input_data`,
`if session_id_for_adk:`, `if not session:`) is translated explicitly, and
each `except` branch becomes an `Except.error` carrying `str(e)`; the
`try/except/finally` shape of `execute` becomes a total function returning
the enqueued messages, the number of `close()` calls and a trace of the
collaborator calls.
-/

/-- Structured values carried in data payloads and verdict dictionaries
(booleans, strings and numbers suffice for every field the executor reads
or builds). -/
inductive JVal where
  | bool (b : Bool) : JVal
  | str (s : String) : JVal
  | num (n : Int) : JVal
deriving DecidableEq, Repr

/-- A Python `dict[str, Any]` as an association list. -/
def RDict : Type := List (String × JVal)

instance : DecidableEq RDict := inferInstanceAs (DecidableEq (List (String × JVal)))

/-- Python `k in d` on a dict. -/
def hasKey (d : RDict) (k : String) : Bool :=
  d.any (fun kv => kv.1 = k)

/-- Python `d[k]` lookup (first binding wins, as dict keys are unique). -/
def dictLookup (d : RDict) (k : String) : Option JVal :=
  (d.find? (fun kv => kv.1 = k)).map (fun kv => kv.2)

/-- Whether one character list is a prefix of another. -/
def isPrefixChars : List Char → List Char → Bool
  | [], _ => true
  | _ :: _, [] => false
  | a :: as, b :: bs => a = b && isPrefixChars as bs

/-- Whether `sub` occurs as a contiguous run inside the second list. -/
def containsChars (sub : List Char) : List Char → Bool
  | [] => isPrefixChars sub []
  | c :: cs => isPrefixChars sub (c :: cs) || containsChars sub cs

/-- Whether `sub` occurs as a substring of `s` (used to state that a reason
string mentions a given condition). -/
def containsSub (s sub : String) : Bool :=
  containsChars sub.data s.data

/-- The `root` of an inbound `a2a` message `Part`: a `DataPart` carrying a
dict, or any other kind of part (text, file, ...), which the executor
ignores. -/
inductive PartRoot where
  | data (d : RDict) : PartRoot
  | text (s : String) : PartRoot
  | file : PartRoot
deriving DecidableEq

/-- An inbound message part (`context.message.parts[i]`). -/
structure MPart where
  root : PartRoot
deriving DecidableEq

/-- The inbound `context.message`. -/
structure AMessage where
  parts : List MPart
deriving DecidableEq

/-- The fields of the A2A `RequestContext` that `execute` reads. -/
structure RequestContext where
  context_id : Option String
  task_id : Option String
  message : Option AMessage
deriving DecidableEq

/-- Python truthiness of `context.context_id : str | None`:
falsy when `None` or the empty string. -/
def contextIdFalsy : Option String → Bool
  | none => true
  | some s => s == ""

/-- Lines 39-43: `agent_input_data` is the data of the first message part
when that part is a `DataPart`, and `None` otherwise. -/
def extractPayload (req : RequestContext) : Option RDict :=
  match req.message with
  | none => none
  | some m =>
    match m.parts with
    | [] => none
    | p :: _ =>
      match p.root with
      | PartRoot.data d => some d
      | _ => none

/-- Lines 45-49: `not agent_input_data or "trade_proposal" not in
agent_input_data or "portfolio_state" not in agent_input_data`
(an empty dict is falsy). -/
def payloadInvalid : Option RDict → Bool
  | none => true
  | some d => d.isEmpty || !hasKey d "trade_proposal" || !hasKey d "portfolio_state"

/-- A session-store key `(app_name, user_id, session_id)`. -/
def SKey : Type := String × String × String

instance : DecidableEq SKey := inferInstanceAs (DecidableEq (String × String × String))

/-- The in-memory session store: the set of keys for which a session exists. -/
def Store : Type := List SKey

instance : DecidableEq Store := inferInstanceAs (DecidableEq (List SKey))

/-- Membership of a key in the store. -/
def storeHas (store : Store) (key : SKey) : Bool :=
  store.any (fun k => k = key)

/-- The `app_name` the runner is constructed with (line 24). -/
def appName : String := "riskguard_adk_runner"

/-- The `user_id` the executor passes to the session service and the runner
(lines 70, 86, 125). -/
def adkUserId : String := "a2a_user"

/-- Failure injection for the session service: the exceptional behaviours the
executor's `try/except` blocks guard against. -/
structure SvcFlags where
  getRaises : Bool
  createRaises : Bool
  createReturnsNone : Bool
deriving DecidableEq

/-- A function response carried by an engine event part: its `name` and its
`response`, which is a dict or some other value. -/
inductive RespVal where
  | dict (d : RDict) : RespVal
  | other : RespVal
deriving DecidableEq

/-- `first_part.function_response` (lines 132-136). -/
structure FunctionResponse where
  name : String
  response : RespVal
deriving DecidableEq

/-- A part of an engine event's content, optionally carrying a function
response. -/
structure EPart where
  function_response : Option FunctionResponse
deriving DecidableEq

/-- An engine event's `content`. -/
structure EContent where
  parts : List EPart
deriving DecidableEq

/-- An event yielded by `run_async` (line 124). -/
structure Event where
  content : Option EContent
deriving DecidableEq

/-- One step of iterating the `run_async` stream: either the next event is
yielded, or iteration raises an exception with the given message. -/
inductive EngineItem where
  | ev (e : Event) : EngineItem
  | exn (msg : String) : EngineItem
deriving DecidableEq

/-- The oracle environment of one `execute` call: the session-service failure
flags and the engine's event stream. -/
structure Env where
  svc : SvcFlags
  engine : List EngineItem
deriving DecidableEq

/-- Lines 131-138 applied to one part: the verdict dict if this part carries
a function response named `risk_check_result` whose response is a dict. -/
def partVerdict (p : EPart) : Option RDict :=
  match p.function_response with
  | none => none
  | some fr =>
    if fr.name = "risk_check_result" then
      match fr.response with
      | RespVal.dict d => some d
      | RespVal.other => none
    else none

/-- Lines 129-138 applied to one event: only `event.content.parts[0]` is
inspected, and only when `content` is present and `parts` is non-empty. -/
def eventVerdict (e : Event) : Option RDict :=
  match e.content with
  | none => none
  | some c =>
    match c.parts with
    | [] => none
    | p :: _ => partVerdict p

/-- An engine item that the loop consumes without adopting a verdict: a
yielded event in which no `risk_check_result` dict appears in the first
content part. -/
def itemSkipped : EngineItem → Bool
  | EngineItem.ev e => (eventVerdict e).isNone
  | EngineItem.exn _ => false

/-- Lines 120-123: the fallback result when the stream produces no verdict. -/
def defaultVerdict : RDict :=
  [("approved", JVal.bool false), ("reason", JVal.str "Agent did not produce a result.")]

/-- Lines 124-139: consume the stream in order, keeping `acc` as the current
`risk_result_dict`; on a matching event adopt its dict and `break`; on an
exception propagate it. Returns the outcome together with the number of
events actually consumed. -/
def scanEvents : List EngineItem → RDict → Except String RDict × Nat
  | [], acc => (Except.ok acc, 0)
  | EngineItem.exn m :: _, _ => (Except.error m, 0)
  | EngineItem.ev e :: rest, acc =>
    match eventVerdict e with
    | some d => (Except.ok d, 1)
    | none =>
      let r := scanEvents rest acc
      (r.1, r.2 + 1)

/-- The outcome of the session-resolution block (lines 65-106): the resolved
session (if any), the `get_session` and `create_session` calls made with
their arguments, and the store afterwards. -/
structure ResolveOut where
  session : Option String
  getCalls : List SKey
  createCalls : List SKey
  store : Store
deriving DecidableEq

/-- Lines 66-106: try `get_session` (an exception is swallowed and treated as
not found); when no session was obtained, try `create_session` with empty
state (an exception, or a `None` return, leaves `session = None`). -/
def resolveSession (flags : SvcFlags) (store : Store) (sid : String) : ResolveOut :=
  let key : SKey := (appName, adkUserId, sid)
  let fetched : Option String :=
    if flags.getRaises then none
    else if storeHas store key then some sid else none
  match fetched with
  | some s => { session := some s, getCalls := [key], createCalls := [], store := store }
  | none =>
    if flags.createRaises then
      { session := none, getCalls := [key], createCalls := [key], store := store }
    else if flags.createReturnsNone then
      { session := none, getCalls := [key], createCalls := [key], store := store }
    else
      { session := some sid, getCalls := [key], createCalls := [key], store := key :: store }

/-- The observable collaborator activity of one `execute` call. -/
structure Trace where
  getCalls : List SKey
  createCalls : List SKey
  runInvoked : Bool
  eventsConsumed : Nat
  store : Store
deriving DecidableEq

/-- The trace of an `execute` call that made no collaborator calls. -/
def emptyTrace (store : Store) : Trace :=
  { getCalls := [], createCalls := [], runInvoked := false, eventsConsumed := 0, store := store }

/-- Lines 65-139 for a validated request: resolve the session (raising
`ConnectionError` — line 117 — when none could be established), then run the
agent and scan its stream. -/
def afterValidation (env : Env) (store : Store) (sid : String) :
    Except String RDict × Trace :=
  let res := resolveSession env.svc store sid
  match res.session with
  | none =>
    (Except.error ("Failed to establish ADK session. session_id was '" ++ sid ++ "'."),
     { getCalls := res.getCalls, createCalls := res.createCalls,
       runInvoked := false, eventsConsumed := 0, store := res.store })
  | some _ =>
    let scanned := scanEvents env.engine defaultVerdict
    (scanned.1,
     { getCalls := res.getCalls, createCalls := res.createCalls,
       runInvoked := true, eventsConsumed := scanned.2, store := res.store })

/-- The body of the `try:` block of `execute` (lines 36-147 up to building the
final message): `Except.error m` models an exception with `str(e) = m`
reaching the `except` clause, `Except.ok d` models reaching line 142 with
`risk_result_dict = d`. -/
def tryBody (req : RequestContext) (env : Env) (store : Store) :
    Except String RDict × Trace :=
  if contextIdFalsy req.context_id then
    (Except.error "Context ID is missing, cannot execute.", emptyTrace store)
  else if payloadInvalid (extractPayload req) then
    (Except.error "Missing 'trade_proposal' or 'portfolio_state' in data payload",
     emptyTrace store)
  else
    match req.context_id with
    | none =>
      (Except.error "Failed to establish ADK session. session_id was 'None'.",
       emptyTrace store)
    | some sid =>
      if sid == "" then
        (Except.error "Failed to establish ADK session. session_id was ''.",
         emptyTrace store)
      else
        afterValidation env store sid

/-- An outbound message built by `new_agent_parts_message`: the request's
context id and task id, and one `DataPart` carrying the verdict dict. -/
structure OutMsg where
  context_id : Option String
  task_id : Option String
  data : RDict
deriving DecidableEq

/-- Lines 152-165: the error dict `{"approved": False, "reason":
f"An internal error occurred: {e}"}`. -/
def errDict (m : String) : RDict :=
  [("approved", JVal.bool false), ("reason", JVal.str ("An internal error occurred: " ++ m))]

/-- The observable outcome of one `execute` call: the messages enqueued on the
event queue, the number of `close()` calls, and the collaborator trace. -/
structure ExecOut where
  messages : List OutMsg
  closed : Nat
  trace : Trace
deriving DecidableEq

/-- Lines 31-169, `RiskGuardAgentExecutor.execute`: run the `try:` body; on
success enqueue the final message (line 147), on any exception enqueue the
error message (line 166); in both cases the `finally:` block closes the
queue once (line 169). -/
def execute (req : RequestContext) (env : Env) (store : Store) : ExecOut :=
  match tryBody req env store with
  | (Except.ok d, tr) =>
    { messages := [{ context_id := req.context_id, task_id := req.task_id, data := d }],
      closed := 1, trace := tr }
  | (Except.error m, tr) =>
    { messages := [{ context_id := req.context_id, task_id := req.task_id, data := errDict m }],
      closed := 1, trace := tr }

/-! ### Concrete fixtures used by witnesses and counterexamples -/

/-- A payload carrying both required keys. -/
def goodPayload : RDict :=
  [("trade_proposal", JVal.str "buy 5 TECH"), ("portfolio_state", JVal.str "cash 1000")]

/-- A well-formed inbound request. -/
def reqGood : RequestContext :=
  { context_id := some "ctx1", task_id := some "t1",
    message := some { parts := [{ root := PartRoot.data goodPayload }] } }

/-- A request with no context id at all. -/
def reqNull : RequestContext :=
  { context_id := none, task_id := none, message := none }

/-- Session-service flags with no failure injected. -/
def benign : SvcFlags :=
  { getRaises := false, createRaises := false, createReturnsNone := false }

/-- An environment whose engine yields no events. -/
def envEmpty : Env := { svc := benign, engine := [] }

/-- The verdict dict `{approved: true, reason: "ok"}`. -/
def okVerdict : RDict := [("approved", JVal.bool true), ("reason", JVal.str "ok")]

/-- An event whose first content part carries the `risk_check_result`
function response with `okVerdict`. -/
def matchEvent : Event :=
  { content := some { parts :=
      [{ function_response := some { name := "risk_check_result",
                                     response := RespVal.dict okVerdict } }] } }

/-- An event with a content part but no function response. -/
def skipEvent : Event :=
  { content := some { parts := [{ function_response := none }] } }

/-! ### Helper lemmas -/

theorem contextIdFalsy_eq_false (sid : String) (h : sid ≠ "") :
    contextIdFalsy (some sid) = false := by
  simp [contextIdFalsy, h]

theorem scanEvents_all_skip (l : List EngineItem) (acc : RDict)
    (h : l.all itemSkipped = true) :
    scanEvents l acc = (Except.ok acc, l.length) := by
  induction l with
  | nil => rfl
  | cons x rest ih =>
    simp only [List.all_cons, Bool.and_eq_true] at h
    cases x with
    | exn m => simp [itemSkipped] at h
    | ev e =>
      have he : eventVerdict e = none := by
        simpa [itemSkipped, Option.isNone_iff_eq_none] using h.1
      simp [scanEvents, he, ih h.2]

theorem scanEvents_match (pre : List EngineItem) (e : Event) (post : List EngineItem)
    (acc d : RDict) (hpre : pre.all itemSkipped = true) (hm : eventVerdict e = some d) :
    scanEvents (pre ++ EngineItem.ev e :: post) acc = (Except.ok d, pre.length + 1) := by
  induction pre with
  | nil => simp [scanEvents, hm]
  | cons x rest ih =>
    simp only [List.all_cons, Bool.and_eq_true] at hpre
    cases x with
    | exn m => simp [itemSkipped] at hpre
    | ev e' =>
      have he : eventVerdict e' = none := by
        simpa [itemSkipped, Option.isNone_iff_eq_none] using hpre.1
      simp [scanEvents, he, ih hpre.2]

theorem resolveSession_getCalls (flags : SvcFlags) (store : Store) (sid : String) :
    (resolveSession flags store sid).getCalls = [(appName, adkUserId, sid)] := by
  unfold resolveSession
  cases hg : flags.getRaises <;>
    by_cases hs : storeHas store (appName, adkUserId, sid) <;>
      simp [hg, hs] <;> split_ifs <;> rfl

theorem resolveSession_benign (store : Store) (sid : String) :
    resolveSession benign store sid =
      if storeHas store (appName, adkUserId, sid) then
        { session := some sid, getCalls := [(appName, adkUserId, sid)],
          createCalls := [], store := store }
      else
        { session := some sid, getCalls := [(appName, adkUserId, sid)],
          createCalls := [(appName, adkUserId, sid)],
          store := (appName, adkUserId, sid) :: store } := by
  by_cases hs : storeHas store (appName, adkUserId, sid) <;>
    simp [resolveSession, benign, hs]

theorem resolveSession_fail (flags : SvcFlags) (store : Store) (sid : String)
    (hget : flags.getRaises = true ∨ storeHas store (appName, adkUserId, sid) = false)
    (hcreate : flags.createRaises = true ∨ flags.createReturnsNone = true) :
    resolveSession flags store sid =
      { session := none, getCalls := [(appName, adkUserId, sid)],
        createCalls := [(appName, adkUserId, sid)], store := store } := by
  have hfetched :
      (if flags.getRaises then (none : Option String)
       else if storeHas store (appName, adkUserId, sid) then some sid else none) = none := by
    rcases hget with h | h <;> simp [h]
  rcases hcreate with h | h
  · simp [resolveSession, hfetched, h]
  · by_cases hcr : flags.createRaises <;> simp [resolveSession, hfetched, h, hcr]

theorem tryBody_valid (req : RequestContext) (env : Env) (store : Store) (sid : String)
    (h1 : req.context_id = some sid) (h2 : sid ≠ "")
    (hpay : payloadInvalid (extractPayload req) = false) :
    tryBody req env store = afterValidation env store sid := by
  unfold tryBody
  rw [h1, contextIdFalsy_eq_false sid h2, hpay]
  simp [h2]

theorem execute_error (req : RequestContext) (env : Env) (store : Store) (m : String)
    (tr : Trace) (hb : tryBody req env store = (Except.error m, tr)) :
    execute req env store =
      { messages := [{ context_id := req.context_id, task_id := req.task_id,
                       data := errDict m }],
        closed := 1, trace := tr } := by
  simp [execute, hb]

theorem execute_ok (req : RequestContext) (env : Env) (store : Store) (d : RDict)
    (tr : Trace) (hb : tryBody req env store = (Except.ok d, tr)) :
    execute req env store =
      { messages := [{ context_id := req.context_id, task_id := req.task_id, data := d }],
        closed := 1, trace := tr } := by
  simp [execute, hb]

theorem errDict_approved (m : String) :
    dictLookup (errDict m) "approved" = some (JVal.bool false) := rfl

theorem errDict_reason (m : String) :
    dictLookup (errDict m) "reason" =
      some (JVal.str ("An internal error occurred: " ++ m)) := rfl

/-! ### The claims -/

/-- Claim C1: every call to `execute` — on any request, any session-service
behaviour and any engine stream, including exception-raising ones — enqueues
exactly one outbound message and closes the event queue exactly once; the
embedding is a total function, so no exception escapes. -/
theorem execute_exactly_one_message (req : RequestContext) (env : Env) (store : Store) :
    (execute req env store).messages.length = 1 ∧
    (execute req env store).closed = 1 := by
  rcases hb : tryBody req env store with ⟨r, tr⟩
  cases r with
  | error m => simp [execute_error req env store m tr hb]
  | ok d => simp [execute_ok req env store d tr hb]

/-- Claim C2: a request whose context id is `None` or empty yields one
outbound message whose verdict has `approved = false` and a reason mentioning
the missing context id, and neither the session service nor the engine is
invoked. -/
theorem execute_null_context_rejected (req : RequestContext) (env : Env) (store : Store)
    (h : contextIdFalsy req.context_id = true) :
    (execute req env store).messages =
      [{ context_id := req.context_id, task_id := req.task_id,
         data := errDict "Context ID is missing, cannot execute." }] ∧
    (∀ m ∈ (execute req env store).messages,
       dictLookup m.data "approved" = some (JVal.bool false) ∧
       ∃ r, dictLookup m.data "reason" = some (JVal.str r) ∧
         containsSub r "Context ID is missing" = true) ∧
    (execute req env store).trace.getCalls = [] ∧
    (execute req env store).trace.createCalls = [] ∧
    (execute req env store).trace.runInvoked = false := by
  have hb : tryBody req env store =
      (Except.error "Context ID is missing, cannot execute.", emptyTrace store) := by
    simp [tryBody, h]
  rw [execute_error req env store _ _ hb]
  refine ⟨rfl, ?_, rfl, rfl, rfl⟩
  intro m hm
  simp only [List.mem_singleton] at hm
  subst hm
  refine ⟨errDict_approved _,
    "An internal error occurred: " ++ "Context ID is missing, cannot execute.",
    errDict_reason _, ?_⟩
  decide

/-- Claim C2, witness: the null request on an empty store. -/
theorem execute_null_context_rejected_witness :
    (execute reqNull envEmpty []).messages =
      [{ context_id := reqNull.context_id, task_id := reqNull.task_id,
         data := errDict "Context ID is missing, cannot execute." }] ∧
    (∀ m ∈ (execute reqNull envEmpty []).messages,
       dictLookup m.data "approved" = some (JVal.bool false) ∧
       ∃ r, dictLookup m.data "reason" = some (JVal.str r) ∧
         containsSub r "Context ID is missing" = true) ∧
    (execute reqNull envEmpty []).trace.getCalls = [] ∧
    (execute reqNull envEmpty []).trace.createCalls = [] ∧
    (execute reqNull envEmpty []).trace.runInvoked = false :=
  execute_null_context_rejected reqNull envEmpty [] (by decide)

/-- Claim C3: a request whose payload is present but lacks `portfolio_state`
(or `trade_proposal`) yields a verdict with `approved = false` and the
engine's `run_async` is never invoked. -/
theorem execute_missing_payload_key (req : RequestContext) (env : Env) (store : Store)
    (d : RDict) (hd : extractPayload req = some d)
    (hmiss : hasKey d "portfolio_state" = false ∨ hasKey d "trade_proposal" = false) :
    (∀ m ∈ (execute req env store).messages,
       dictLookup m.data "approved" = some (JVal.bool false)) ∧
    (execute req env store).trace.runInvoked = false := by
  have hpi : payloadInvalid (extractPayload req) = true := by
    rw [hd]; rcases hmiss with h | h <;> simp [payloadInvalid, h]
  cases hc : contextIdFalsy req.context_id with
  | true =>
    have hb : tryBody req env store =
        (Except.error "Context ID is missing, cannot execute.", emptyTrace store) := by
      simp [tryBody, hc]
    rw [execute_error req env store _ _ hb]
    refine ⟨?_, rfl⟩
    intro m hm
    simp only [List.mem_singleton] at hm
    subst hm
    exact errDict_approved _
  | false =>
    have hb : tryBody req env store =
        (Except.error "Missing 'trade_proposal' or 'portfolio_state' in data payload",
         emptyTrace store) := by
      simp [tryBody, hc, hpi]
    rw [execute_error req env store _ _ hb]
    refine ⟨?_, rfl⟩
    intro m hm
    simp only [List.mem_singleton] at hm
    subst hm
    exact errDict_approved _

/-- A request whose payload has `trade_proposal` but no `portfolio_state`. -/
def reqNoPortfolio : RequestContext :=
  { context_id := some "ctx1", task_id := some "t1",
    message := some { parts :=
      [{ root := PartRoot.data [("trade_proposal", JVal.str "buy 5 TECH")] }] } }

/-- Claim C3, witness: a request missing `portfolio_state`. -/
theorem execute_missing_payload_key_witness :
    (∀ m ∈ (execute reqNoPortfolio envEmpty []).messages,
       dictLookup m.data "approved" = some (JVal.bool false)) ∧
    (execute reqNoPortfolio envEmpty []).trace.runInvoked = false :=
  execute_missing_payload_key reqNoPortfolio envEmpty []
    [("trade_proposal", JVal.str "buy 5 TECH")] (by decide) (Or.inl (by decide))

theorem execute_trace (req : RequestContext) (env : Env) (store : Store) :
    (execute req env store).trace = (tryBody req env store).2 := by
  rcases hb : tryBody req env store with ⟨r, tr⟩
  cases r <;> simp [execute, hb]

theorem afterValidation_benign_scan (env : Env) (store : Store) (sid : String)
    (r : Except String RDict) (n : Nat) (hb : env.svc = benign)
    (hscan : scanEvents env.engine defaultVerdict = (r, n)) :
    afterValidation env store sid =
      (r, { getCalls := [(appName, adkUserId, sid)],
            createCalls := if storeHas store (appName, adkUserId, sid) then []
                           else [(appName, adkUserId, sid)],
            runInvoked := true, eventsConsumed := n,
            store := if storeHas store (appName, adkUserId, sid) then store
                     else (appName, adkUserId, sid) :: store }) := by
  by_cases hs : storeHas store (appName, adkUserId, sid) <;>
    simp [afterValidation, hb, resolveSession_benign, hs, hscan]

/-- Claim C4: for a valid request with an established session, the stream is
consumed in order and the first event carrying a `risk_check_result` function
response with a dict payload is adopted as the verdict; consumption stops at
that event, so exactly `pre.length + 1` events are consumed and none of the
later items is touched. -/
theorem execute_adopts_first_matching_verdict (req : RequestContext) (env : Env)
    (store : Store) (sid : String) (pre post : List EngineItem) (e : Event) (d : RDict)
    (h1 : req.context_id = some sid) (h2 : sid ≠ "")
    (hpay : payloadInvalid (extractPayload req) = false)
    (hb : env.svc = benign)
    (heng : env.engine = pre ++ EngineItem.ev e :: post)
    (hpre : pre.all itemSkipped = true)
    (hm : eventVerdict e = some d) :
    (execute req env store).messages =
      [{ context_id := req.context_id, task_id := req.task_id, data := d }] ∧
    (execute req env store).trace.eventsConsumed = pre.length + 1 := by
  have hscan : scanEvents env.engine defaultVerdict = (Except.ok d, pre.length + 1) := by
    rw [heng]; exact scanEvents_match pre e post defaultVerdict d hpre hm
  have hbody := (tryBody_valid req env store sid h1 h2 hpay).trans
    (afterValidation_benign_scan env store sid (Except.ok d) (pre.length + 1) hb hscan)
  rw [execute_trace req env store, execute_ok req env store d _ hbody, hbody]
  exact ⟨rfl, rfl⟩

/-- An environment whose engine yields one non-matching event and then the
matching one. -/
def envMatch : Env :=
  { svc := benign, engine := [EngineItem.ev skipEvent, EngineItem.ev matchEvent] }

/-- Claim C4, witness: the matching event follows one non-matching event. -/
theorem execute_adopts_first_matching_verdict_witness :
    (execute reqGood envMatch []).messages =
      [{ context_id := reqGood.context_id, task_id := reqGood.task_id,
         data := okVerdict }] ∧
    (execute reqGood envMatch []).trace.eventsConsumed =
      [EngineItem.ev skipEvent].length + 1 :=
  execute_adopts_first_matching_verdict reqGood envMatch [] "ctx1"
    [EngineItem.ev skipEvent] [] matchEvent okVerdict
    rfl (by decide) (by decide) rfl rfl (by decide) rfl

/-- Claim C5: for a valid request with an established session, when no event
of the stream carries a `risk_check_result` dict in its first content part,
the emitted verdict is the default
`{approved: false, reason: "Agent did not produce a result."}`. -/
theorem execute_default_fallback (req : RequestContext) (env : Env) (store : Store)
    (sid : String)
    (h1 : req.context_id = some sid) (h2 : sid ≠ "")
    (hpay : payloadInvalid (extractPayload req) = false)
    (hb : env.svc = benign)
    (heng : env.engine.all itemSkipped = true) :
    (execute req env store).messages =
      [{ context_id := req.context_id, task_id := req.task_id,
         data := [("approved", JVal.bool false),
                  ("reason", JVal.str "Agent did not produce a result.")] }] := by
  have hscan : scanEvents env.engine defaultVerdict =
      (Except.ok defaultVerdict, env.engine.length) :=
    scanEvents_all_skip env.engine defaultVerdict heng
  have hbody := (tryBody_valid req env store sid h1 h2 hpay).trans
    (afterValidation_benign_scan env store sid (Except.ok defaultVerdict)
      env.engine.length hb hscan)
  rw [execute_ok req env store defaultVerdict _ hbody]
  rfl

/-- An environment whose engine yields only non-matching events. -/
def envSkips : Env := { svc := benign, engine := [EngineItem.ev skipEvent] }

/-- Claim C5, witness: a stream with one non-matching event. -/
theorem execute_default_fallback_witness :
    (execute reqGood envSkips []).messages =
      [{ context_id := reqGood.context_id, task_id := reqGood.task_id,
         data := [("approved", JVal.bool false),
                  ("reason", JVal.str "Agent did not produce a result.")] }] :=
  execute_default_fallback reqGood envSkips [] "ctx1"
    rfl (by decide) (by decide) rfl (by decide)

theorem afterValidation_getCalls (env : Env) (store : Store) (sid : String) :
    (afterValidation env store sid).2.getCalls = [(appName, adkUserId, sid)] := by
  cases hres : (resolveSession env.svc store sid).session with
  | none =>
    have := resolveSession_getCalls env.svc store sid
    simp [afterValidation, hres, this]
  | some s =>
    have := resolveSession_getCalls env.svc store sid
    simp [afterValidation, hres, this]

/-- Claim C6, counterexample: on a valid request with context id `"ctx1"`,
the session-service `get` call carries `app_name = "riskguard_adk_runner"`
and `user_id = "a2a_user"`, not the `app_scope = "risk_adapter"` /
`user_id = "system_user"` stated by the claim. -/
theorem execute_get_session_args_cex :
    (execute reqGood envEmpty []).trace.getCalls =
      [("riskguard_adk_runner", "a2a_user", "ctx1")] ∧
    (execute reqGood envEmpty []).trace.getCalls ≠
      [("risk_adapter", "system_user", "ctx1")] := by
  constructor <;> decide

/-- Claim C6, amended: for every valid request, session resolution calls the
session service's `get` exactly once, with the runner's app name
`"riskguard_adk_runner"`, user id `"a2a_user"` and the request's context id
as the session identifier. -/
theorem execute_get_session_args (req : RequestContext) (env : Env) (store : Store)
    (sid : String)
    (h1 : req.context_id = some sid) (h2 : sid ≠ "")
    (hpay : payloadInvalid (extractPayload req) = false) :
    (execute req env store).trace.getCalls =
      [("riskguard_adk_runner", "a2a_user", sid)] := by
  rw [execute_trace req env store, tryBody_valid req env store sid h1 h2 hpay]
  exact afterValidation_getCalls env store sid

/-- Claim C6, witness: the amended statement at the concrete valid request. -/
theorem execute_get_session_args_witness :
    (execute reqGood envMatch []).trace.getCalls =
      [("riskguard_adk_runner", "a2a_user", "ctx1")] :=
  execute_get_session_args reqGood envMatch [] "ctx1" rfl (by decide) (by decide)

/-- Claim C7: for a valid request, when `get_session` fails (raises or finds
nothing) and `create_session` also fails (raises or returns nothing), the
engine is never invoked and `execute` emits exactly one message whose verdict
has `approved = false` and a reason describing the session failure, and the
queue is still closed once. -/
theorem execute_session_unavailable (req : RequestContext) (env : Env) (store : Store)
    (sid : String)
    (h1 : req.context_id = some sid) (h2 : sid ≠ "")
    (hpay : payloadInvalid (extractPayload req) = false)
    (hget : env.svc.getRaises = true ∨ storeHas store (appName, adkUserId, sid) = false)
    (hcreate : env.svc.createRaises = true ∨ env.svc.createReturnsNone = true) :
    (execute req env store).messages =
      [{ context_id := req.context_id, task_id := req.task_id,
         data := errDict ("Failed to establish ADK session. session_id was '"
           ++ sid ++ "'.") }] ∧
    (∀ m ∈ (execute req env store).messages,
       dictLookup m.data "approved" = some (JVal.bool false) ∧
       dictLookup m.data "reason" =
         some (JVal.str ("An internal error occurred: " ++
           ("Failed to establish ADK session. session_id was '" ++ sid ++ "'.")))) ∧
    (execute req env store).trace.runInvoked = false ∧
    (execute req env store).closed = 1 := by
  have hres := resolveSession_fail env.svc store sid hget hcreate
  have hbody : tryBody req env store =
      (Except.error ("Failed to establish ADK session. session_id was '" ++ sid ++ "'."),
       { getCalls := [(appName, adkUserId, sid)],
         createCalls := [(appName, adkUserId, sid)],
         runInvoked := false, eventsConsumed := 0, store := store }) := by
    rw [tryBody_valid req env store sid h1 h2 hpay]
    simp [afterValidation, hres]
  rw [execute_trace req env store, execute_error req env store _ _ hbody, hbody]
  refine ⟨rfl, ?_, rfl, rfl⟩
  intro m hm
  simp only [List.mem_singleton] at hm
  subst hm
  exact ⟨errDict_approved _, errDict_reason _⟩

/-- Session-service flags where both `get_session` and `create_session`
raise. -/
def svcDown : SvcFlags :=
  { getRaises := true, createRaises := true, createReturnsNone := false }

/-- An environment whose session service is down. -/
def envDown : Env := { svc := svcDown, engine := [] }

/-- Claim C7, witness: a valid request against a session service that can
neither get nor create a session. -/
theorem execute_session_unavailable_witness :
    (execute reqGood envDown []).messages =
      [{ context_id := reqGood.context_id, task_id := reqGood.task_id,
         data := errDict ("Failed to establish ADK session. session_id was '"
           ++ "ctx1" ++ "'.") }] ∧
    (∀ m ∈ (execute reqGood envDown []).messages,
       dictLookup m.data "approved" = some (JVal.bool false) ∧
       dictLookup m.data "reason" =
         some (JVal.str ("An internal error occurred: " ++
           ("Failed to establish ADK session. session_id was '" ++ "ctx1" ++ "'.")))) ∧
    (execute reqGood envDown []).trace.runInvoked = false ∧
    (execute reqGood envDown []).closed = 1 :=
  execute_session_unavailable reqGood envDown [] "ctx1"
    rfl (by decide) (by decide) (Or.inl rfl) (Or.inl rfl)

/-- Claim C8: two valid requests sharing a non-empty context id, executed in
sequence against an initially empty store with a healthy session service,
make exactly one `create_session` call in total and at least one
`get_session` call each: the second request finds the session the first
created. -/
theorem execute_session_reuse (req1 req2 : RequestContext) (env1 env2 : Env)
    (sid : String)
    (h1 : req1.context_id = some sid) (h2 : req2.context_id = some sid) (hs : sid ≠ "")
    (hp1 : payloadInvalid (extractPayload req1) = false)
    (hp2 : payloadInvalid (extractPayload req2) = false)
    (hb1 : env1.svc = benign) (hb2 : env2.svc = benign) :
    (execute req1 env1 []).trace.createCalls.length +
      (execute req2 env2 (execute req1 env1 []).trace.store).trace.createCalls.length
      = 1 ∧
    1 ≤ (execute req1 env1 []).trace.getCalls.length ∧
    1 ≤ (execute req2 env2 (execute req1 env1 []).trace.store).trace.getCalls.length := by
  have hs0 : storeHas [] (appName, adkUserId, sid) = false := rfl
  have hbody1 := (tryBody_valid req1 env1 [] sid h1 hs hp1).trans
    (afterValidation_benign_scan env1 [] sid
      (scanEvents env1.engine defaultVerdict).1
      (scanEvents env1.engine defaultVerdict).2 hb1 rfl)
  have hst1 : (execute req1 env1 []).trace.store = [(appName, adkUserId, sid)] := by
    rw [execute_trace req1 env1 [], hbody1]
    simp [hs0]
  have hcc1 : (execute req1 env1 []).trace.createCalls = [(appName, adkUserId, sid)] := by
    rw [execute_trace req1 env1 [], hbody1]
    simp [hs0]
  have hgc1 : (execute req1 env1 []).trace.getCalls = [(appName, adkUserId, sid)] := by
    rw [execute_trace req1 env1 [], hbody1]
  rw [hst1, hcc1, hgc1]
  have hs1 : storeHas [(appName, adkUserId, sid)] (appName, adkUserId, sid) = true := by
    simp [storeHas]
  have hbody2 := (tryBody_valid req2 env2 [(appName, adkUserId, sid)] sid h2 hs hp2).trans
    (afterValidation_benign_scan env2 [(appName, adkUserId, sid)] sid
      (scanEvents env2.engine defaultVerdict).1
      (scanEvents env2.engine defaultVerdict).2 hb2 rfl)
  have hcc2 : (execute req2 env2 [(appName, adkUserId, sid)]).trace.createCalls = [] := by
    rw [execute_trace req2 env2 [(appName, adkUserId, sid)], hbody2]
    simp [hs1]
  have hgc2 : (execute req2 env2 [(appName, adkUserId, sid)]).trace.getCalls =
      [(appName, adkUserId, sid)] := by
    rw [execute_trace req2 env2 [(appName, adkUserId, sid)], hbody2]
  rw [hcc2, hgc2]
  simp

/-- A second well-formed request with the same context id as `reqGood`. -/
def reqGood2 : RequestContext :=
  { context_id := some "ctx1", task_id := some "t2",
    message := some { parts := [{ root := PartRoot.data goodPayload }] } }

/-- Claim C8, witness: `reqGood` then `reqGood2` on an initially empty
store. -/
theorem execute_session_reuse_witness :
    (execute reqGood envMatch []).trace.createCalls.length +
      (execute reqGood2 envSkips
        (execute reqGood envMatch []).trace.store).trace.createCalls.length = 1 ∧
    1 ≤ (execute reqGood envMatch []).trace.getCalls.length ∧
    1 ≤ (execute reqGood2 envSkips
        (execute reqGood envMatch []).trace.store).trace.getCalls.length :=
  execute_session_reuse reqGood reqGood2 envMatch envSkips "ctx1"
    rfl rfl (by decide) (by decide) (by decide) rfl rfl

/-- Claim C9: verdict scanning inspects only the first part of an event's
content: an event whose first part carries no `risk_check_result` dict is
skipped — even when a later part of the same event does carry one — and
scanning continues with the rest of the stream, consuming one extra event. -/
theorem execute_skips_non_first_part_match (req : RequestContext) (env : Env)
    (store : Store) (sid : String) (e : Event) (rest : List EngineItem)
    (p : EPart) (ps : List EPart)
    (h1 : req.context_id = some sid) (h2 : sid ≠ "")
    (hpay : payloadInvalid (extractPayload req) = false)
    (hb : env.svc = benign)
    (heng : env.engine = EngineItem.ev e :: rest)
    (hc : e.content = some { parts := p :: ps })
    (hp : partVerdict p = none)
    (hq : ps.any (fun q => (partVerdict q).isSome) = true) :
    (execute req env store).messages =
      (execute req { svc := env.svc, engine := rest } store).messages ∧
    (execute req env store).trace.eventsConsumed =
      (execute req { svc := env.svc, engine := rest } store).trace.eventsConsumed + 1 := by
  have hev : eventVerdict e = none := by
    simp [eventVerdict, hc, hp]
  have hscan : scanEvents env.engine defaultVerdict =
      ((scanEvents rest defaultVerdict).1, (scanEvents rest defaultVerdict).2 + 1) := by
    rw [heng]
    simp [scanEvents, hev]
  have hbody1 := (tryBody_valid req env store sid h1 h2 hpay).trans
    (afterValidation_benign_scan env store sid
      (scanEvents rest defaultVerdict).1 ((scanEvents rest defaultVerdict).2 + 1) hb hscan)
  have hbody2 := (tryBody_valid req { svc := env.svc, engine := rest } store sid h1 h2 hpay).trans
    (afterValidation_benign_scan { svc := env.svc, engine := rest } store sid
      (scanEvents rest defaultVerdict).1 (scanEvents rest defaultVerdict).2 hb rfl)
  cases hr : (scanEvents rest defaultVerdict).1 with
  | error m =>
    rw [hr] at hbody1 hbody2
    rw [execute_trace req env store,
        execute_trace req { svc := env.svc, engine := rest } store,
        execute_error req env store m _ hbody1,
        execute_error req { svc := env.svc, engine := rest } store m _ hbody2,
        hbody1, hbody2]
    exact ⟨rfl, rfl⟩
  | ok d =>
    rw [hr] at hbody1 hbody2
    rw [execute_trace req env store,
        execute_trace req { svc := env.svc, engine := rest } store,
        execute_ok req env store d _ hbody1,
        execute_ok req { svc := env.svc, engine := rest } store d _ hbody2,
        hbody1, hbody2]
    exact ⟨rfl, rfl⟩

/-- An event whose first content part has no function response while its
second part carries a matching `risk_check_result` dict. -/
def twoPartEvent : Event :=
  { content := some { parts :=
      [{ function_response := none },
       { function_response := some { name := "risk_check_result",
                                     response := RespVal.dict okVerdict } }] } }

/-- An environment whose engine yields only `twoPartEvent`. -/
def envTwoPart : Env := { svc := benign, engine := [EngineItem.ev twoPartEvent] }

/-- Claim C9, witness: the match in the second part of the only event is
ignored. -/
theorem execute_skips_non_first_part_match_witness :
    (execute reqGood envTwoPart []).messages =
      (execute reqGood { svc := envTwoPart.svc, engine := [] } []).messages ∧
    (execute reqGood envTwoPart []).trace.eventsConsumed =
      (execute reqGood { svc := envTwoPart.svc, engine := [] } []).trace.eventsConsumed
        + 1 :=
  execute_skips_non_first_part_match reqGood envTwoPart [] "ctx1" twoPartEvent []
    { function_response := none }
    [{ function_response := some { name := "risk_check_result",
                                   response := RespVal.dict okVerdict } }]
    rfl (by decide) (by decide) rfl rfl rfl rfl (by decide)

/-- Whether the first inbound message part cannot supply a payload: it is not
a `DataPart`, or its data dict is empty (Python-falsy). -/
def firstPartUnusable (p : MPart) : Bool :=
  match p.root with
  | PartRoot.data d => d.isEmpty
  | _ => true

/-- Claim C10: the payload is taken only from the first message part and only
when it is a `DataPart`: whenever the first part is of another kind or its
data is empty, validation fails as a missing payload — whatever the later
parts contain — yielding an error verdict with `approved = false` and no
engine invocation. -/
theorem execute_payload_first_part_only (req : RequestContext) (env : Env)
    (store : Store) (p : MPart) (ps : List MPart)
    (hctx : contextIdFalsy req.context_id = false)
    (hmsg : req.message = some { parts := p :: ps })
    (hbad : firstPartUnusable p = true) :
    (execute req env store).messages =
      [{ context_id := req.context_id, task_id := req.task_id,
         data := errDict "Missing 'trade_proposal' or 'portfolio_state' in data payload" }] ∧
    (∀ m ∈ (execute req env store).messages,
       dictLookup m.data "approved" = some (JVal.bool false)) ∧
    (execute req env store).trace.runInvoked = false := by
  have hpi : payloadInvalid (extractPayload req) = true := by
    cases hroot : p.root with
    | data d =>
      have hde : d.isEmpty = true := by
        simpa [firstPartUnusable, hroot] using hbad
      simp [extractPayload, hmsg, hroot, payloadInvalid, hde]
    | text s => simp [extractPayload, hmsg, hroot, payloadInvalid]
    | file => simp [extractPayload, hmsg, hroot, payloadInvalid]
  have hbody : tryBody req env store =
      (Except.error "Missing 'trade_proposal' or 'portfolio_state' in data payload",
       emptyTrace store) := by
    simp [tryBody, hctx, hpi]
  rw [execute_trace req env store, execute_error req env store _ _ hbody, hbody]
  refine ⟨rfl, ?_, rfl⟩
  intro m hm
  simp only [List.mem_singleton] at hm
  subst hm
  exact errDict_approved _

/-- A request whose first part is a text part while its second part is a
`DataPart` holding both required keys. -/
def reqTextFirst : RequestContext :=
  { context_id := some "ctx1", task_id := some "t1",
    message := some { parts :=
      [{ root := PartRoot.text "hello" },
       { root := PartRoot.data goodPayload }] } }

/-- Claim C10, witness: the required keys in the second part do not save a
request whose first part is not a `DataPart`. -/
theorem execute_payload_first_part_only_witness :
    (execute reqTextFirst envEmpty []).messages =
      [{ context_id := reqTextFirst.context_id, task_id := reqTextFirst.task_id,
         data := errDict "Missing 'trade_proposal' or 'portfolio_state' in data payload" }] ∧
    (∀ m ∈ (execute reqTextFirst envEmpty []).messages,
       dictLookup m.data "approved" = some (JVal.bool false)) ∧
    (execute reqTextFirst envEmpty []).trace.runInvoked = false :=
  execute_payload_first_part_only reqTextFirst envEmpty []
    { root := PartRoot.text "hello" } [{ root := PartRoot.data goodPayload }]
    (by decide) rfl (by decide)
